import Mathlib

/-!
Verification of the terminal-lifeform simulation engine.

The Python engine is shallowly embedded over exact rationals: every float
computation of the source is mirrored as a `ℚ` computation, machine floats
being modelled by exact arithmetic.  Python's `**` operator on floats is
abstracted as an explicit function argument `fpow`, since the engine raises a
rational base to a possibly non-integral exponent (`death_rate`).
-/

namespace TLF

/-- Entity status enumeration, from `entity.py` (`class Status(Enum)`). -/
inductive Status where
  | thriving
  | struggling
  | alive
  | dormant
  | exploring
  | dead
deriving DecidableEq, Repr

/-- The per-entity trait parameters used by the engine
(`params.entity_params` keys, minus the initial health/energy seeds). -/
structure EntityParams where
  max_age : ℚ
  metabolism_rate : ℚ
  health_recovery_rate : ℚ
  health_decay_rate : ℚ
  resilience : ℚ
  foraging_efficiency : ℚ
  thriving_threshold_health : ℚ
  thriving_threshold_energy : ℚ
  struggling_threshold_health : ℚ
  struggling_threshold_energy : ℚ
  reproduction_chance : ℚ
  min_reproduction_age : ℚ
  aggression : ℚ
  cooperation : ℚ
deriving DecidableEq, Repr

/-- An entity's numeric state, from `entity.py` (`class Entity`). -/
structure Entity where
  age : ℕ
  health : ℚ
  energy : ℚ
  status : Status
  parameters : EntityParams
deriving DecidableEq, Repr

/-- `Entity.is_alive` from `entity.py`: status is anything but dead. -/
def Entity.isAlive (e : Entity) : Bool :=
  e.status ≠ Status.dead

/-- `Entity.update_status` from `entity.py`: reclassify from health, energy,
age and the trait parameters; death forces health and energy to 0. -/
def updateStatus (e : Entity) : Entity :=
  if e.health ≤ 0 ∨ e.parameters.max_age ≤ (e.age : ℚ) then
    { e with status := Status.dead, health := 0, energy := 0 }
  else if e.parameters.thriving_threshold_health ≤ e.health ∧
          e.parameters.thriving_threshold_energy ≤ e.energy then
    { e with status := Status.thriving }
  else if e.health ≤ e.parameters.struggling_threshold_health ∨
          e.energy ≤ e.parameters.struggling_threshold_energy then
    { e with status := Status.struggling }
  else
    { e with status := Status.alive }

/-- The environment-factor fields read by the engine
(`sim.environment_factors` keys). -/
structure EnvFactors where
  resource_availability : ℚ
  temperature : ℚ
  pollution : ℚ
  event_chance : ℚ
  interaction_strength : ℚ
  mutation_rate : ℚ
  mutation_strength : ℚ
  radiation_background : ℚ
  death_rate : ℚ
  disaster_chance : ℚ
  disaster_impact : ℚ
  predator_chance : ℚ
  predator_threshold : ℚ
  predator_impact_percentage : ℚ
  optimal_density : ℚ
deriving DecidableEq, Repr

/-- `calc_energy_change` from `utils/entity_utils.py`. -/
def calcEnergyChange (e : Entity) (env : EnvFactors) : ℚ :=
  let energy_consumed := e.parameters.metabolism_rate
  let energy_consumed :=
    if e.health < 50 then energy_consumed + (50 - e.health) * 0.1
    else energy_consumed
  let energy_gained :=
    env.resource_availability * e.parameters.foraging_efficiency * 1.8
  let energy_consumed :=
    if env.resource_availability < 1 then
      energy_consumed + (1 - env.resource_availability) * 5.0
    else energy_consumed
  energy_gained - energy_consumed

/-- `calc_health_change` from `utils/entity_utils.py`.  `fpow` stands for
Python's `**` (the age-decay term raises `age` to `death_rate`). -/
def calcHealthChange (fpow : ℚ → ℚ → ℚ) (e : Entity) (env : EnvFactors) : ℚ :=
  let energy := e.energy
  let recovery := e.parameters.health_recovery_rate
  let decay := e.parameters.health_decay_rate
  let resilience := e.parameters.resilience
  let health_change : ℚ := -0.005
  let decay :=
    if env.radiation_background > 0.2 then
      decay + (env.radiation_background - 0.2) * (1.5 - resilience) * 0.5
    else decay
  if e.health ≥ 95 then health_change
  else
    let health_change :=
      if energy > 50 then health_change + (energy - 50) * recovery * 0.1
      else health_change - (50 - energy) * decay * 0.1
    let health_change :=
      if env.temperature < 10 ∨ env.temperature > 35 then
        health_change - |env.temperature - 22.5| * (1 - resilience) * 0.1
      else health_change
    let health_change :=
      if env.pollution > 0.1 then
        health_change - env.pollution * (1.3 - resilience) * 3.0
      else health_change
    health_change - 0.5 * fpow (e.age : ℚ) env.death_rate

/-- `Simulation.process_entity` from `sim.py`: the per-entity lifecycle step.
Dead entities are skipped; otherwise age increments, then energy and health
are updated in that order (health change reads the already-updated energy and
age but the not-yet-updated health, as in the source), each clamped to
[0, 100], and the status is reclassified. -/
def processEntity (fpow : ℚ → ℚ → ℚ) (env : EnvFactors) (e : Entity) : Entity :=
  if ¬ e.isAlive then e
  else
    let e := { e with age := e.age + 1 }
    let e := { e with energy := max 0 (min 100 (e.energy + calcEnergyChange e env)) }
    let e := { e with health := max 0 (min 100 (e.health + calcHealthChange fpow e env)) }
    updateStatus e

/-- The interaction-intensity modifier of `Simulation.handle_interactions`
(`sim.py`): `(1 - resources) + num_alive/100`, clamped to [0.1, 1.0]. -/
def interactionModifier (env : EnvFactors) (numAlive : ℕ) : ℚ :=
  min 1 (max 0.1 ((1 - env.resource_availability) + (numAlive : ℚ) / 100))

/-- One pairwise competition from `Simulation.handle_interactions` (`sim.py`):
entity 1 damages entity 2's health (with a +0.1 offset) and energy, then
entity 2 damages entity 1's health and energy (offset on energy).  Each result
is clamped from below at 0 only. -/
def interactionStep (env : EnvFactors) (modifier : ℚ) (e1 e2 : Entity) :
    Entity × Entity :=
  let damage_to_entity2 :=
    e1.parameters.aggression * env.interaction_strength * modifier
  let e2 := { e2 with
    health := max 0 (e2.health - damage_to_entity2 + 0.1)
    energy := max 0 (e2.energy - damage_to_entity2 / 2) }
  let damage_to_entity1 :=
    e2.parameters.aggression * env.interaction_strength * modifier
  let e1 := { e1 with
    health := max 0 (e1.health - damage_to_entity1)
    energy := max 0 (e1.energy - damage_to_entity1 / 2 + 0.1) }
  (e1, e2)

/-- Kill an entity as the bulk-cull events do (`sim.py`): force health to 0,
then reclassify the status. -/
def killEntity (e : Entity) : Entity :=
  updateStatus { e with health := 0 }

/-- Python's `int(...)` applied to a float: truncation toward zero. -/
def pyTrunc (x : ℚ) : ℤ :=
  if 0 ≤ x then ⌊x⌋ else -⌊-x⌋

/-- Python 3's one-argument `round(...)`: round half to even. -/
def pyRound (x : ℚ) : ℤ :=
  let f := x.floor
  let r := x - f
  if r < 1 / 2 then f
  else if 1 / 2 < r then f + 1
  else if 2 ∣ f then f else f + 1

/-- The subsystems invoked by `Simulation.run_simulation` (`sim.py`), plus the
adaptation subsystem (`adapt_entities` in `utils/entity_utils.py`). -/
inductive Stage where
  | events
  | lifecycle
  | interactions
  | reclassifyCull
  | reproduction
  | adaptation
  | regulation
  | envFeedback
deriving DecidableEq, Repr

/-- The order in which one iteration of the main loop of
`Simulation.run_simulation` (`sim.py`) invokes the subsystems:
`random_events`/`predator_event`/`natural_disaster`, then the
`process_entity` loop, then `handle_interactions`, then the
`update_status` loop and the filter dropping dead entities, then
`handle_reproduction`, then `efficiency_modifier`/`over_population`/
`baby_boom`, then `update_environment` and `apply_feedback_loops`. -/
def epochStages : List Stage :=
  [Stage.events, Stage.lifecycle, Stage.interactions, Stage.reclassifyCull,
   Stage.reproduction, Stage.regulation, Stage.envFeedback]

/-- The per-epoch subsystem order as the specification words it:
events, lifecycle, interactions, reproduction/mutation, adaptation,
reclassification/culling, regulation, environment feedback. -/
def claimedEpochStages : List Stage :=
  [Stage.events, Stage.lifecycle, Stage.interactions, Stage.reproduction,
   Stage.adaptation, Stage.reclassifyCull, Stage.regulation, Stage.envFeedback]

/-- The baby-boom gate of `Simulation.run_simulation` (`sim.py`):
`alive_count < optimal_density and self.count > 16 and random.random() < 0.25`.
`draw` models the uniform [0, 1) sample. -/
def babyBoomGate (aliveCount : ℕ) (optimalDensity : ℚ) (count : ℕ) (draw : ℚ) :
    Bool :=
  decide ((aliveCount : ℚ) < optimalDensity) && decide (16 < count) &&
    decide (draw < 0.25)

/-- The offspring count of `Simulation.baby_boom` (`sim.py`):
`min(int(alive_count * 0.3) + 3, 150)`. -/
def numNewBabies (aliveCount : ℕ) : ℤ :=
  min (pyTrunc ((aliveCount : ℚ) * 0.3) + 3) 150

/-- How many offspring a triggered baby boom actually spawns (`sim.py`):
`numNewBabies` clones when some live non-struggling parent exists, else none. -/
def boomSpawnCount (aliveCount : ℕ) (anyEligibleParent : Bool) : ℤ :=
  if anyEligibleParent then numNewBabies aliveCount else 0

/-- Booms fired over a run: `run_simulation` evaluates the gate each epoch on
the current (alive count, loop counter, draw) triple and calls `baby_boom`
whenever it holds; nothing records or limits past booms.  The run is modelled
by its per-epoch gate inputs. -/
def boomsInRun (optimalDensity : ℚ) (epochs : List (ℕ × ℕ × ℚ)) : ℕ :=
  (epochs.filter (fun p => babyBoomGate p.1 optimalDensity p.2.1 p.2.2)).length

/-- The wildcard kinds `Simulation.random_events` (`sim.py`) chooses from. -/
def randomEventKinds : List String :=
  ["resource_spike", "resource_crash", "disease_outbreak", "heatwave",
   "radiation_burst"]

/-- The wildcard kinds `trigger_random_events` (`events.py`) chooses from. -/
def triggerRandomEventKinds : List String :=
  ["resource_spike", "resource_crash", "disease_outbreak", "heatwave",
   "radiation_burst", "cold_snap", "meteor_strike", "mutagenic_wave"]

/-- The 8 wildcard kinds the specification names. -/
def claimedWildcardKinds : List String :=
  ["resource_spike", "resource_crash", "disease_outbreak", "heatwave",
   "radiation_burst", "cold_snap", "meteor_strike", "mutagenic_wave"]

/-- The natural-disaster gate of `Simulation.natural_disaster` (`sim.py`):
`(pollution > 0.5 or temperature > 35.0) and random.random() < disaster_chance`. -/
def disasterFires (env : EnvFactors) (draw : ℚ) : Prop :=
  (env.pollution > 0.5 ∨ env.temperature > 35) ∧ draw < env.disaster_chance

instance (env : EnvFactors) (draw : ℚ) : Decidable (disasterFires env draw) := by
  unfold disasterFires; infer_instance

/-- `num_to_remove` of `Simulation.natural_disaster` (`sim.py`):
`max(1, int(alive_count * disaster_impact * severity))`. -/
def disasterNumToRemove (aliveCount : ℕ) (env : EnvFactors) (severity : ℚ) : ℤ :=
  max 1 (pyTrunc ((aliveCount : ℚ) * env.disaster_impact * severity))

/-- How many live entities a triggered natural disaster kills (`sim.py`): the
sample size `min(num_to_remove, alive_count)`. -/
def disasterRemovedCount (aliveCount : ℕ) (env : EnvFactors) (severity : ℚ) : ℤ :=
  min (disasterNumToRemove aliveCount env severity) (aliveCount : ℤ)

/-- `num_to_remove` of `Simulation.predator_event` (`sim.py`):
`max(1, int(alive_count * predator_impact_percentage * damage * severity))`. -/
def predatorNumToRemove (aliveCount : ℕ) (env : EnvFactors)
    (damage severity : ℚ) : ℤ :=
  max 1
    (pyTrunc ((aliveCount : ℚ) * env.predator_impact_percentage * damage *
      severity))

/-- How many live entities a triggered predator event kills (`sim.py`): all of
`num_to_remove` from the struggling pool when that pool is large enough, else
`min(num_to_remove, alive_count)` from the whole live pool. -/
def predatorRemovedCount (aliveCount strugglingCount : ℕ) (env : EnvFactors)
    (damage severity : ℚ) : ℤ :=
  if predatorNumToRemove aliveCount env damage severity ≤ (strugglingCount : ℤ)
  then predatorNumToRemove aliveCount env damage severity
  else min (predatorNumToRemove aliveCount env damage severity) (aliveCount : ℤ)

/-- The reproduction decision of `Simulation.handle_reproduction` (`sim.py`):
status is not struggling, age has reached `min_reproduction_age`, and the
uniform draw is below `reproduction_chance`. -/
def reproduces (e : Entity) (draw : ℚ) : Bool :=
  decide (e.status ≠ Status.struggling) &&
    decide (e.parameters.min_reproduction_age ≤ (e.age : ℚ)) &&
    decide (draw < e.parameters.reproduction_chance)

/-- The loop body of `Simulation.handle_reproduction` (`sim.py`): walk the
population in order (each entity paired with its reproduction draw); a
reproducing parent spawns `mk` applied to its pre-cost state into the pending
offspring list and then loses 3.0 health.  Returns the walked parents and the
pending offspring, in iteration order.  `mk` abstracts offspring construction
(parameter copy, mutation, fresh [80, 100] health/energy). -/
def reproLoop (mk : Entity → Entity) :
    List (Entity × ℚ) → List Entity × List Entity
  | [] => ([], [])
  | (e, draw) :: rest =>
      if reproduces e draw then
        ({ e with health := e.health - 3.0 } :: (reproLoop mk rest).1,
         mk e :: (reproLoop mk rest).2)
      else
        (e :: (reproLoop mk rest).1, (reproLoop mk rest).2)

/-- `Simulation.handle_reproduction` (`sim.py`): the population after the
pass is the walked parent list with all pending offspring extended at the
end (`self.entities.extend(new_entities)`). -/
def handleReproduction (mk : Entity → Entity) (pop : List (Entity × ℚ)) :
    List Entity :=
  (reproLoop mk pop).1 ++ (reproLoop mk pop).2

/-- Spec-side description of the reproduction pass: every parent pays the 3.0
health cost exactly when the reproduction predicate holds for it. -/
def reproParents (pop : List (Entity × ℚ)) : List Entity :=
  pop.map (fun p =>
    if reproduces p.1 p.2 then { p.1 with health := p.1.health - 3.0 } else p.1)

/-- Spec-side description of the offspring of the reproduction pass: one
`mk`-image per entity satisfying the reproduction predicate. -/
def reproOffspring (mk : Entity → Entity) (pop : List (Entity × ℚ)) :
    List Entity :=
  (pop.filter (fun p => reproduces p.1 p.2)).map (fun p => mk p.1)

/-- The required entity trait keys of `validate_entity_params`
(`utils/entity_utils.py`). -/
def requiredKeys : List String :=
  ["metabolism_rate", "health_recovery_rate", "health_decay_rate",
   "resilience", "foraging_efficiency", "reproduction_chance", "aggression",
   "cooperation"]

/-- Lookup in a parameter mapping, modelled as an association list. -/
def dictLookup : List (String × ℚ) → String → Option ℚ
  | [], _ => none
  | p :: d, k => if p.1 == k then some p.2 else dictLookup d k

/-- Python's `k in params` membership test. -/
def dictHasKey (d : List (String × ℚ)) (k : String) : Bool :=
  (dictLookup d k).isSome

/-- `[k for k in required_keys if k not in params]` from
`validate_entity_params`. -/
def missingKeys (params : List (String × ℚ)) : List String :=
  requiredKeys.filter (fun k => !(dictHasKey params k))

/-- An entity as `add_entity` sees it: its free-form parameter mapping. -/
structure DictEntity where
  params : List (String × ℚ)
deriving DecidableEq, Repr

/-- The simulation state `Simulation.add_entity` touches: the population and
the total-created counter. -/
structure SimPop where
  entities : List DictEntity
  total_entities : ℕ
deriving DecidableEq, Repr

/-- `validate_entity_params` (`utils/entity_utils.py`): raise, naming the
missing keys, when any required key is absent. -/
def validateEntityParams (params : List (String × ℚ)) :
    Except (List String) Unit :=
  match missingKeys params with
  | [] => Except.ok ()
  | ms => Except.error ms

/-- `Simulation.add_entity` (`sim.py`): validate first; only then append the
entity and bump the counter.  A raise leaves the state untouched. -/
def addEntity (sim : SimPop) (e : DictEntity) : Except (List String) SimPop :=
  match validateEntityParams e.params with
  | Except.error ms => Except.error ms
  | Except.ok _ =>
      Except.ok
        { entities := sim.entities ++ [e],
          total_entities := sim.total_entities + 1 }

/-- One row of the `mutable_parameters` table of `Simulation.apply_mutation`
(`sim.py`): name, bounds, and whether the parameter is integer-typed. -/
structure MutableParamCfg where
  name : String
  lo : ℚ
  hi : ℚ
  isInt : Bool
deriving DecidableEq, Repr

/-- The `mutable_parameters` table of `Simulation.apply_mutation` /
`handle_mutation` (identical in `sim.py` and `handlers.py`). -/
def mutableParameters : List MutableParamCfg :=
  [⟨"max_age", 50, 99, true⟩,
   ⟨"metabolism_rate", 0.2, 0.9, false⟩,
   ⟨"resilience", 0.2, 0.8, false⟩,
   ⟨"reproduction_chance", 0.01, 0.15, false⟩,
   ⟨"aggression", 0, 0.9, false⟩]

/-- Overwrite key `k` in the association-list mapping (dict assignment). -/
def dictSet (d : List (String × ℚ)) (k : String) (v : ℚ) :
    List (String × ℚ) :=
  d.map (fun p => if p.1 == k then (k, v) else p)

/-- One iteration of the mutation loop (`sim.py` / `handlers.py`): when the
gate draw fires, read the original value (Python raises `KeyError` when the
key is absent, modelled as `none`), add `original_value * changeDraw` (the
`changeDraw` models `random.uniform(-mutation_strength, mutation_strength)`),
round when integer-typed, clamp to the declared bounds, and write it back. -/
def mutateOne (rate : ℚ) (cfg : MutableParamCfg) (gateDraw changeDraw : ℚ)
    (d : List (String × ℚ)) : Option (List (String × ℚ)) :=
  if gateDraw < rate then
    match dictLookup d cfg.name with
    | none => none
    | some originalValue =>
        let change := originalValue * changeDraw
        let newValue : ℚ :=
          if cfg.isInt then (pyRound (originalValue + change) : ℚ)
          else originalValue + change
        let newValue := max cfg.lo (min cfg.hi newValue)
        some (dictSet d cfg.name newValue)
  else some d

/-- `Simulation.apply_mutation` / `handle_mutation`: walk the mutable-parameter
table over a copy of the input mapping (the functional model keeps the input
untouched, as `params.copy()` keeps the caller's dict untouched), each row
paired with its (gate, magnitude) draws. -/
def handleMutation (rate : ℚ) (draws : List (ℚ × ℚ))
    (params : List (String × ℚ)) : Option (List (String × ℚ)) :=
  (mutableParameters.zip draws).foldlM
    (fun d p => mutateOne rate p.1 p.2.1 p.2.2 d) params

/-- The names of the five mutable parameters. -/
def mutableNames : List String :=
  mutableParameters.map (fun c => c.name)

/-- Status classification as the specification words it, with strict
top-to-bottom precedence: a pure function of (health, energy, age,
parameters). -/
def classifySpec (health energy : ℚ) (age : ℕ) (p : EntityParams) : Status :=
  if health ≤ 0 ∨ (age : ℚ) ≥ p.max_age then Status.dead
  else if health ≥ p.thriving_threshold_health ∧
          energy ≥ p.thriving_threshold_energy then Status.thriving
  else if health ≤ p.struggling_threshold_health ∨
          energy ≤ p.struggling_threshold_energy then Status.struggling
  else Status.alive

/-- The per-epoch health delta as the specification words it: a base decay of
-0.005; a radiation surcharge on the decay rate used below; a hard ceiling at
health 95 returning only the base decay; otherwise an energy term, a
temperature penalty, a pollution penalty and an age-decay term. -/
def healthDeltaSpec (fpow : ℚ → ℚ → ℚ) (e : Entity) (env : EnvFactors) : ℚ :=
  if e.health ≥ 95 then -0.005
  else
    -0.005
      + (if e.energy > 50 then
          (e.energy - 50) * e.parameters.health_recovery_rate * 0.1
        else
          -((50 - e.energy) *
            (e.parameters.health_decay_rate +
              (if env.radiation_background > 0.2 then
                (env.radiation_background - 0.2) *
                  (1.5 - e.parameters.resilience) * 0.5
              else 0)) * 0.1))
      - (if env.temperature < 10 ∨ env.temperature > 35 then
          |env.temperature - 22.5| * (1 - e.parameters.resilience) * 0.1
        else 0)
      - (if env.pollution > 0.1 then
          env.pollution * (1.3 - e.parameters.resilience) * 3.0
        else 0)
      - 0.5 * fpow (e.age : ℚ) env.death_rate

/-- `entity_params` from `params.py` (the trait fields of the engine). -/
def defaultEntityParams : EntityParams :=
  { max_age := 99, metabolism_rate := 0.3, health_recovery_rate := 1.15,
    health_decay_rate := 1.35, resilience := 0.18, foraging_efficiency := 0.35,
    thriving_threshold_health := 65, thriving_threshold_energy := 60,
    struggling_threshold_health := 33, struggling_threshold_energy := 22,
    reproduction_chance := 1.3, min_reproduction_age := 13,
    aggression := 0.3, cooperation := 0.1 }

/-- `default_environment_factors` from `params.py`, restricted to the fields
the engine reads (`predator_chance` is sampled in [0.1, 0.2] at import time,
fixed here at 0.15; `optimal_density` comes from the world presets, fixed here
at the spec's default-scenario value 1000). -/
def defaultEnv : EnvFactors :=
  { resource_availability := 1, temperature := 25, pollution := 0.1,
    event_chance := 0.03, interaction_strength := 0.5, mutation_rate := 0.11,
    mutation_strength := 0.03, radiation_background := 0, death_rate := 1,
    disaster_chance := 0, disaster_impact := 0, predator_chance := 0.15,
    predator_threshold := 250, predator_impact_percentage := 0.13,
    optimal_density := 1000 }

/-- A freshly created entity (`Entity.__init__` with the default parameters:
age 0, health and energy at the initial 100, status alive). -/
def freshEntity : Entity :=
  { age := 0, health := 100, energy := 100, status := Status.alive,
    parameters := defaultEntityParams }

/-- The spec scenario entity: health 10, energy 10, default thresholds
(thriving health 65, struggling health 33). -/
def scenarioEntity : Entity :=
  { age := 0, health := 10, energy := 10, status := Status.alive,
    parameters := defaultEntityParams }

/-- The scenario entity after reclassification (its status is struggling). -/
def strugglingEntity : Entity :=
  updateStatus scenarioEntity

/-- The spec's disaster scenario environment: pollution 0.6, temperature 40,
disaster_chance 1.0, disaster_impact 0.5. -/
def scenarioEnv : EnvFactors :=
  { defaultEnv with
    pollution := 0.6
    temperature := 40
    disaster_chance := 1
    disaster_impact := 0.5 }

/-- A trivial stand-in for Python's `**` (the lifecycle paths exercised by the
concrete states below never reach the age-decay term). -/
def fpowOne : ℚ → ℚ → ℚ := fun _ _ => 1

/-- An 8-epoch stretch of run states (alive count 5, loop counter 17..24,
draw 0 each epoch) on which the baby-boom gate holds every epoch. -/
def boomRunExample : List (ℕ × ℕ × ℚ) :=
  [(5, 17, 0), (5, 18, 0), (5, 19, 0), (5, 20, 0),
   (5, 21, 0), (5, 22, 0), (5, 23, 0), (5, 24, 0)]

/-- `entity_params` from `params.py` as the dict `apply_mutation` receives. -/
def entityParamsDict : List (String × ℚ) :=
  [("max_age", 99), ("initial_health", 100), ("initial_energy", 100),
   ("metabolism_rate", 0.3), ("health_recovery_rate", 1.15),
   ("health_decay_rate", 1.35), ("resilience", 0.18),
   ("foraging_efficiency", 0.35), ("thriving_threshold_health", 65),
   ("thriving_threshold_energy", 60), ("struggling_threshold_health", 33),
   ("struggling_threshold_energy", 22), ("reproduction_chance", 1.3),
   ("min_reproduction_age", 13), ("aggression", 0.3), ("cooperation", 0.1)]

/-- Gate draws of 1 for every row of the mutation table (no row fires while
the mutation rate stays below 1). -/
def skipDraws : List (ℚ × ℚ) :=
  [(1, 0), (1, 0), (1, 0), (1, 0), (1, 0)]

/-- An entity parameter mapping with no keys at all. -/
def emptyParamsEntity : DictEntity := ⟨[]⟩

/-- An entity parameter mapping holding every required key. -/
def fullParamsEntity : DictEntity :=
  ⟨[("metabolism_rate", 0.3), ("health_recovery_rate", 1.15),
    ("health_decay_rate", 1.35), ("resilience", 0.18),
    ("foraging_efficiency", 0.35), ("reproduction_chance", 1.3),
    ("aggression", 0.3), ("cooperation", 0.1)]⟩

/-- The position of a subsystem in the epoch sequence of
`Simulation.run_simulation`. -/
def stageIdx (s : Stage) : ℕ :=
  epochStages.findIdx (fun x => decide (x = s))

/-- C2: status classification is a pure function of (health, energy, age,
parameters) with strict top-to-bottom precedence — dead (health and energy
forced to 0) when health ≤ 0 or age ≥ max_age, else thriving when both
thriving thresholds are met, else struggling when either struggling threshold
is crossed, else alive; and the scenario entity with health 10, energy 10,
thriving threshold 65 and struggling threshold 33 classifies as struggling. -/
theorem c2_update_status_spec (e : Entity) :
    (updateStatus e).status = classifySpec e.health e.energy e.age e.parameters ∧
    (updateStatus e).health =
      (if e.health ≤ 0 ∨ e.parameters.max_age ≤ (e.age : ℚ) then 0
       else e.health) ∧
    (updateStatus e).energy =
      (if e.health ≤ 0 ∨ e.parameters.max_age ≤ (e.age : ℚ) then 0
       else e.energy) ∧
    (updateStatus scenarioEntity).status = Status.struggling := by
  refine ⟨?_, ?_, ?_, by decide⟩ <;>
    · simp only [updateStatus, classifySpec]
      split_ifs <;> rfl

/-- C3: the per-epoch health delta computed by `calc_health_change` equals the
specification's formula — base decay -0.005; a radiation surcharge on the
decay rate when radiation > 0.2; only the base decay when health ≥ 95;
otherwise the energy gain/loss term, the temperature penalty, the pollution
penalty and the age-decay term 0.5·age^death_rate. -/
theorem c3_calc_health_change_spec (fpow : ℚ → ℚ → ℚ) (e : Entity)
    (env : EnvFactors) :
    calcHealthChange fpow e env = healthDeltaSpec fpow e env := by
  simp only [calcHealthChange, healthDeltaSpec]
  split_ifs <;> ring

/-- C4 counterexample: the epoch sequence the claim describes is not the one
`Simulation.run_simulation` runs — the adaptation stage is never invoked, and
reclassification/culling comes before reproduction, not after. -/
theorem c4_claimed_order_cex :
    claimedEpochStages ≠ epochStages ∧
    Stage.adaptation ∉ epochStages ∧
    ¬ stageIdx Stage.reproduction < stageIdx Stage.reclassifyCull := by
  decide

/-- C4 (amended): within one epoch the subsystems run in the order events,
lifecycle, interactions, reclassification/culling, reproduction, population
regulation, environment feedback; culling precedes reproduction and no
adaptation stage runs. -/
theorem c4_epoch_stage_order :
    stageIdx Stage.events = 0 ∧
    stageIdx Stage.lifecycle = 1 ∧
    stageIdx Stage.interactions = 2 ∧
    stageIdx Stage.reclassifyCull = 3 ∧
    stageIdx Stage.reproduction = 4 ∧
    stageIdx Stage.regulation = 5 ∧
    stageIdx Stage.envFeedback = 6 ∧
    stageIdx Stage.reclassifyCull < stageIdx Stage.reproduction ∧
    Stage.adaptation ∉ epochStages := by
  decide

/-- C5 counterexample: the run-loop baby-boom gate reads only the live count,
the loop counter and a draw — on a concrete 8-epoch stretch of consecutive
low-population epochs it fires 8 booms, so booms are neither capped at 7 per
run nor separated by a 10-epoch cooldown. -/
theorem c5_boom_run_cex :
    boomsInRun 1000 boomRunExample = 8 ∧ 7 < boomsInRun 1000 boomRunExample := by
  have hg : ∀ c : ℕ, 16 < c → babyBoomGate 5 1000 c 0 = true := by
    intro c hc
    simp only [babyBoomGate, Bool.and_eq_true, decide_eq_true_eq]
    exact ⟨⟨by norm_num, hc⟩, by norm_num⟩
  constructor
  · simp [boomsInRun, boomRunExample, List.filter_cons, hg]
  · simp [boomsInRun, boomRunExample, List.filter_cons, hg]

/-- C5 (amended): a baby boom spawns at most 150 offspring, and the gate that
fires it requires exactly live_count < optimal_density, loop counter > 16 and
a draw < 0.25 — there is no boom-count cap and no cooldown. -/
theorem c5_baby_boom_bounds (aliveCount : ℕ) (anyParent : Bool)
    (optimalDensity : ℚ) (count : ℕ) (draw : ℚ)
    (h : babyBoomGate aliveCount optimalDensity count draw = true) :
    boomSpawnCount aliveCount anyParent ≤ 150 ∧
    (aliveCount : ℚ) < optimalDensity ∧ 16 < count ∧ draw < 0.25 := by
  have h' := h
  simp only [babyBoomGate, Bool.and_eq_true, decide_eq_true_eq] at h'
  refine ⟨?_, h'.1.1, h'.1.2, h'.2⟩
  unfold boomSpawnCount numNewBabies
  split_ifs
  · exact min_le_right _ _
  · norm_num

/-- C5 witness: the gate holds at live count 5, optimal density 1000, loop
counter 17 and draw 0, and the spawned count is within the 150 cap. -/
theorem c5_baby_boom_bounds_witness :
    babyBoomGate 5 1000 17 0 = true ∧
    boomSpawnCount 5 true ≤ 150 ∧
    ((5 : ℕ) : ℚ) < 1000 ∧ 16 < 17 ∧ (0 : ℚ) < 0.25 := by
  have hg : babyBoomGate 5 1000 17 0 = true := by
    simp only [babyBoomGate, Bool.and_eq_true, decide_eq_true_eq]
    norm_num
  have h := c5_baby_boom_bounds 5 true 1000 17 0 hg
  exact ⟨hg, h.1, h.2.1, h.2.2.1, h.2.2.2⟩

/-- C6 counterexample: the wildcard step the epoch loop runs
(`Simulation.random_events`) draws from only 5 kinds — cold_snap,
meteor_strike and mutagenic_wave are not possible outcomes. -/
theorem c6_missing_kinds_cex :
    claimedWildcardKinds ≠ randomEventKinds ∧
    "cold_snap" ∉ randomEventKinds ∧
    "meteor_strike" ∉ randomEventKinds ∧
    "mutagenic_wave" ∉ randomEventKinds := by
  decide

/-- C6 (amended): the epoch loop's wildcard step chooses uniformly among
exactly the 5 kinds resource_spike, resource_crash, disease_outbreak,
heatwave, radiation_burst; the unused events-module variant
`trigger_random_events` is the one offering all 8 named kinds. -/
theorem c6_wildcard_kinds :
    randomEventKinds.length = 5 ∧
    randomEventKinds.Nodup ∧
    triggerRandomEventKinds = claimedWildcardKinds ∧
    triggerRandomEventKinds.length = 8 ∧
    triggerRandomEventKinds.Nodup ∧
    randomEventKinds ⊆ triggerRandomEventKinds ∧
    "resource_spike" ∈ randomEventKinds ∧
    "resource_crash" ∈ randomEventKinds ∧
    "disease_outbreak" ∈ randomEventKinds ∧
    "heatwave" ∈ randomEventKinds ∧
    "radiation_burst" ∈ randomEventKinds := by
  decide

/-- Clamping to [0, 100] lands in [0, 100]. -/
theorem clampBounds (x : ℚ) : 0 ≤ max 0 (min 100 x) ∧ max 0 (min 100 x) ≤ 100 :=
  ⟨le_max_left 0 _, max_le (by norm_num) (min_le_left 100 x)⟩

/-- Reclassification keeps health and energy inside [0, 100] (death forces
both to 0, every other branch leaves them unchanged). -/
theorem updateStatus_bounds (e : Entity) (h1 : 0 ≤ e.health)
    (h2 : e.health ≤ 100) (h3 : 0 ≤ e.energy) (h4 : e.energy ≤ 100) :
    0 ≤ (updateStatus e).health ∧ (updateStatus e).health ≤ 100 ∧
    0 ≤ (updateStatus e).energy ∧ (updateStatus e).energy ≤ 100 := by
  unfold updateStatus
  split_ifs
  · exact ⟨le_rfl, by norm_num, le_rfl, by norm_num⟩
  · exact ⟨h1, h2, h3, h4⟩
  · exact ⟨h1, h2, h3, h4⟩
  · exact ⟨h1, h2, h3, h4⟩

/-- C1 (amended): after the per-entity lifecycle update a live entity's health
and energy lie in [0, 100] (both deltas are applied under a [0, 100] clamp and
reclassification preserves the bounds); the interaction step, however, clamps
health and energy from below at 0 only, so the epoch's updates guarantee just
the lower bound after interactions. -/
theorem c1_lifecycle_bounds (fpow : ℚ → ℚ → ℚ) (env : EnvFactors) (m : ℚ)
    (e e1 e2 : Entity) (h : e.isAlive = true) :
    (0 ≤ (processEntity fpow env e).health ∧
     (processEntity fpow env e).health ≤ 100 ∧
     0 ≤ (processEntity fpow env e).energy ∧
     (processEntity fpow env e).energy ≤ 100) ∧
    (0 ≤ ((interactionStep env m e1 e2).1).health ∧
     0 ≤ ((interactionStep env m e1 e2).1).energy ∧
     0 ≤ ((interactionStep env m e1 e2).2).health ∧
     0 ≤ ((interactionStep env m e1 e2).2).energy) := by
  constructor
  · unfold processEntity
    rw [if_neg (by simp [h])]
    exact updateStatus_bounds _ (clampBounds _).1 (clampBounds _).2
      (clampBounds _).1 (clampBounds _).2
  · refine ⟨?_, ?_, ?_, ?_⟩ <;>
      · unfold interactionStep
        exact le_max_left 0 _

/-- C1 witness: the bounds instantiated at a fresh default entity in the
default environment. -/
theorem c1_lifecycle_bounds_witness :
    freshEntity.isAlive = true ∧
    ((0 ≤ (processEntity fpowOne defaultEnv freshEntity).health ∧
      (processEntity fpowOne defaultEnv freshEntity).health ≤ 100 ∧
      0 ≤ (processEntity fpowOne defaultEnv freshEntity).energy ∧
      (processEntity fpowOne defaultEnv freshEntity).energy ≤ 100) ∧
     (0 ≤ ((interactionStep defaultEnv 1 freshEntity freshEntity).1).health ∧
      0 ≤ ((interactionStep defaultEnv 1 freshEntity freshEntity).1).energy ∧
      0 ≤ ((interactionStep defaultEnv 1 freshEntity freshEntity).2).health ∧
      0 ≤ ((interactionStep defaultEnv 1 freshEntity freshEntity).2).energy)) :=
  ⟨by decide,
   c1_lifecycle_bounds fpowOne defaultEnv 1 freshEntity freshEntity
     freshEntity (by decide)⟩

/-- C1 counterexample: a fresh default entity leaves the lifecycle update at
health 99.995 and energy 100 — inside [0, 100] — yet one interaction step of
the same epoch (2 live entities, default environment) lifts the target's
health to 100.08 > 100, because the damage 0.3·0.5·0.1 = 0.015 is smaller
than the +0.1 offset and no upper clamp is applied. -/
theorem c1_interaction_exceeds_upper_bound :
    (processEntity fpowOne defaultEnv freshEntity).health = 99.995 ∧
    (processEntity fpowOne defaultEnv freshEntity).energy = 100 ∧
    100 < ((interactionStep defaultEnv (interactionModifier defaultEnv 2)
      (processEntity fpowOne defaultEnv freshEntity)
      (processEntity fpowOne defaultEnv freshEntity)).2).health := by
  have hne : (Status.alive = Status.dead) = False :=
    eq_false (fun hc => Status.noConfusion hc)
  norm_num [processEntity, calcEnergyChange, calcHealthChange, updateStatus,
    interactionStep, interactionModifier, freshEntity, defaultEnv,
    defaultEntityParams, fpowOne, Entity.isAlive, min_def, max_def, hne]

/-- C7: when the natural disaster fires on a live population of at least 1
with impact·severity ≤ 1, it kills exactly max(1, ⌊live·impact·severity⌋)
entities, always at least 1; each killed entity has health forced to 0 and is
reclassified dead; a triggered predator event also kills at least 1; and the
scenario environment (pollution 0.6, temperature 40, disaster_chance 1)
fires deterministically for every draw below 1. -/
theorem c7_disaster_cull_count (aliveCount : ℕ) (env : EnvFactors)
    (severity : ℚ) (e : Entity) (h1 : 1 ≤ aliveCount)
    (h2 : 0 ≤ env.disaster_impact) (h3 : 0 ≤ severity)
    (h4 : env.disaster_impact * severity ≤ 1) :
    disasterRemovedCount aliveCount env severity =
      max 1 (pyTrunc ((aliveCount : ℚ) * env.disaster_impact * severity)) ∧
    1 ≤ disasterRemovedCount aliveCount env severity ∧
    (killEntity e).status = Status.dead ∧
    (killEntity e).health = 0 ∧
    (killEntity e).energy = 0 ∧
    (∀ strugglingCount : ℕ, ∀ damage sev : ℚ,
      1 ≤ predatorRemovedCount aliveCount strugglingCount env damage sev) ∧
    (∀ d : ℚ, d < 1 → disasterFires scenarioEnv d) := by
  have hx : (0 : ℚ) ≤ (aliveCount : ℚ) * env.disaster_impact * severity :=
    mul_nonneg (mul_nonneg (Nat.cast_nonneg _) h2) h3
  have hle : (aliveCount : ℚ) * env.disaster_impact * severity ≤
      (aliveCount : ℚ) := by
    calc (aliveCount : ℚ) * env.disaster_impact * severity
        = (aliveCount : ℚ) * (env.disaster_impact * severity) := by ring
      _ ≤ (aliveCount : ℚ) * 1 :=
          mul_le_mul_of_nonneg_left h4 (Nat.cast_nonneg _)
      _ = (aliveCount : ℚ) := mul_one _
  have ht : pyTrunc ((aliveCount : ℚ) * env.disaster_impact * severity) ≤
      (aliveCount : ℤ) := by
    unfold pyTrunc
    rw [if_pos hx]
    calc ⌊(aliveCount : ℚ) * env.disaster_impact * severity⌋
        ≤ ⌊((aliveCount : ℕ) : ℚ)⌋ := Int.floor_mono hle
      _ = (aliveCount : ℤ) := Int.floor_natCast _
  have h1z : (1 : ℤ) ≤ (aliveCount : ℤ) := by exact_mod_cast h1
  have hmain : disasterRemovedCount aliveCount env severity =
      max 1 (pyTrunc ((aliveCount : ℚ) * env.disaster_impact * severity)) := by
    unfold disasterRemovedCount disasterNumToRemove
    exact min_eq_left (max_le h1z ht)
  refine ⟨hmain, ?_, ?_, ?_, ?_, ?_, ?_⟩
  · rw [hmain]; exact le_max_left 1 _
  · simp [killEntity, updateStatus]
  · simp [killEntity, updateStatus]
  · simp [killEntity, updateStatus]
  · intro strugglingCount damage sev
    unfold predatorRemovedCount
    split_ifs
    · exact le_max_left 1 _
    · exact le_min (le_max_left 1 _) h1z
  · intro d hd
    exact ⟨Or.inl (by norm_num [scenarioEnv, defaultEnv]), hd⟩

/-- C7 witness: the spec scenario — 100 live entities, disaster_impact 0.5,
severity 0.25 — kills exactly 12 entities, and the scenario environment fires
at draw 0.5. -/
theorem c7_disaster_cull_count_witness :
    disasterRemovedCount 100 scenarioEnv 0.25 =
      max 1 (pyTrunc ((100 : ℚ) * scenarioEnv.disaster_impact * 0.25)) ∧
    disasterRemovedCount 100 scenarioEnv 0.25 = 12 ∧
    1 ≤ disasterRemovedCount 100 scenarioEnv 0.25 ∧
    (killEntity freshEntity).status = Status.dead ∧
    disasterFires scenarioEnv 0.5 := by
  have h := c7_disaster_cull_count 100 scenarioEnv 0.25 freshEntity
    (by norm_num) (by norm_num [scenarioEnv, defaultEnv]) (by norm_num)
    (by norm_num [scenarioEnv, defaultEnv])
  refine ⟨h.1, ?_, h.2.1, h.2.2.1, h.2.2.2.2.2.2 0.5 (by norm_num)⟩
  rw [h.1]
  norm_num [scenarioEnv, defaultEnv, pyTrunc]

/-- The parent component of the reproduction loop is the spec-side parent
update. -/
theorem reproLoop_fst (mk : Entity → Entity) (pop : List (Entity × ℚ)) :
    (reproLoop mk pop).1 = reproParents pop := by
  induction pop with
  | nil => rfl
  | cons p rest ih =>
      obtain ⟨e, draw⟩ := p
      simp only [reproLoop, reproParents, List.map_cons]
      split_ifs <;> simp [ih, reproParents]

/-- The offspring component of the reproduction loop is the spec-side
filter/map characterisation. -/
theorem reproLoop_snd (mk : Entity → Entity) (pop : List (Entity × ℚ)) :
    (reproLoop mk pop).2 = reproOffspring mk pop := by
  induction pop with
  | nil => rfl
  | cons p rest ih =>
      obtain ⟨e, draw⟩ := p
      simp only [reproLoop, reproOffspring, List.filter_cons]
      split_ifs <;> simp [ih, reproOffspring]

/-- C8: an entity of the reproduction pass spawns an offspring exactly when
its status is not struggling, its age has reached min_reproduction_age and
its draw is below reproduction_chance — so struggling or under-age entities
never reproduce — and the pass returns the walked parents with all offspring
appended after them (no offspring is evaluated as a parent in the same
pass). -/
theorem c8_reproduction_pass (mk : Entity → Entity) (pop : List (Entity × ℚ)) :
    handleReproduction mk pop = reproParents pop ++ reproOffspring mk pop ∧
    (∀ p ∈ pop, p.1.status = Status.struggling → reproduces p.1 p.2 = false) ∧
    (∀ p ∈ pop, (p.1.age : ℚ) < p.1.parameters.min_reproduction_age →
      reproduces p.1 p.2 = false) ∧
    (∀ p ∈ pop, reproduces p.1 p.2 = true →
      p.1.status ≠ Status.struggling ∧
      p.1.parameters.min_reproduction_age ≤ (p.1.age : ℚ) ∧
      p.2 < p.1.parameters.reproduction_chance) := by
  refine ⟨?_, ?_, ?_, ?_⟩
  · unfold handleReproduction
    rw [reproLoop_fst, reproLoop_snd]
  · intro p _ hstat
    simp [reproduces, hstat]
  · intro p _ hage
    have hn : ¬ p.1.parameters.min_reproduction_age ≤ (p.1.age : ℚ) :=
      not_le.mpr hage
    simp [reproduces, hn]
  · intro p _ h
    simpa [reproduces, Bool.and_eq_true, decide_eq_true_eq, and_assoc] using h

/-- C8 witness: on the singleton pass holding the struggling scenario entity,
the pass equals its parents-plus-offspring characterisation and the entity
does not reproduce. -/
theorem c8_reproduction_pass_witness :
    handleReproduction killEntity [(strugglingEntity, 0)] =
      reproParents [(strugglingEntity, 0)] ++
        reproOffspring killEntity [(strugglingEntity, 0)] ∧
    strugglingEntity.status = Status.struggling ∧
    reproduces strugglingEntity 0 = false := by
  have h := c8_reproduction_pass killEntity [(strugglingEntity, 0)]
  refine ⟨h.1, by decide, ?_⟩
  exact h.2.1 (strugglingEntity, 0) (List.mem_singleton.mpr rfl) (by decide)

/-- C9: adding an entity validates its parameter mapping first — when any
required trait key is missing, `add_entity` raises an error naming exactly
the missing keys and admits nothing (the population and the total-created
counter are untouched); with every required key present it never raises and
appends the entity while bumping the counter by one. -/
theorem c9_add_entity_validation (sim : SimPop) (e : DictEntity) :
    (missingKeys e.params ≠ [] →
      addEntity sim e = Except.error (missingKeys e.params)) ∧
    (missingKeys e.params = [] →
      addEntity sim e = Except.ok
        { entities := sim.entities ++ [e],
          total_entities := sim.total_entities + 1 }) ∧
    (∀ ms, addEntity sim e = Except.error ms →
      ms = missingKeys e.params ∧ ms ≠ []) := by
  unfold addEntity validateEntityParams
  rcases hm : missingKeys e.params with _ | ⟨k, ks⟩
  · refine ⟨fun h => absurd rfl h, fun _ => rfl, ?_⟩
    intro ms h
    exact Except.noConfusion h
  · refine ⟨fun _ => rfl, fun h => List.noConfusion h, ?_⟩
    intro ms h
    injection h with h1
    subst h1
    exact ⟨rfl, by simp⟩

/-- C9 witness: an empty mapping is rejected with exactly the full required
key list while the state stays out of the result; a mapping with all required
keys is admitted, appended and counted. -/
theorem c9_add_entity_validation_witness :
    missingKeys emptyParamsEntity.params = requiredKeys ∧
    addEntity ⟨[], 0⟩ emptyParamsEntity =
      Except.error (missingKeys emptyParamsEntity.params) ∧
    missingKeys fullParamsEntity.params = [] ∧
    addEntity ⟨[], 0⟩ fullParamsEntity =
      Except.ok ⟨[fullParamsEntity], 1⟩ := by
  have h1 := (c9_add_entity_validation ⟨[], 0⟩ emptyParamsEntity).1 (by decide)
  have h2 := (c9_add_entity_validation ⟨[], 0⟩ fullParamsEntity).2.1 (by decide)
  exact ⟨by decide, h1, by decide, by simp [h2]⟩

/-- Updating one key of the mapping leaves every other key's value alone. -/
theorem dictLookup_dictSet_ne (d : List (String × ℚ)) (k k' : String) (v : ℚ)
    (h : k' ≠ k) : dictLookup (dictSet d k v) k' = dictLookup d k' := by
  induction d with
  | nil => rfl
  | cons p rest ih =>
      simp only [dictSet, List.map_cons, beq_iff_eq] at *
      by_cases hp : p.1 = k
      · simp [dictLookup, hp, Ne.symm h, ih]
      · by_cases hq : p.1 = k'
        · simp [dictLookup, hp, hq, h]
        · simp [dictLookup, hp, hq, ih]

/-- One mutation-table row touches at most its own key. -/
theorem mutateOne_frame (rate : ℚ) (cfg : MutableParamCfg) (g c : ℚ)
    (d d' : List (String × ℚ)) (h : mutateOne rate cfg g c d = some d')
    (k : String) (hk : k ≠ cfg.name) : dictLookup d' k = dictLookup d k := by
  unfold mutateOne at h
  by_cases hg : g < rate
  · rw [if_pos hg] at h
    cases hl : dictLookup d cfg.name with
    | none => rw [hl] at h; exact Option.noConfusion h
    | some v =>
        rw [hl] at h
        injection h with h1
        subst h1
        exact dictLookup_dictSet_ne d cfg.name k _ hk
  · rw [if_neg hg] at h
    injection h with h1
    subst h1
    rfl

/-- Folding mutation rows whose names all differ from `k` never changes the
value at `k`. -/
theorem foldMutate_frame (rate : ℚ) (l : List (MutableParamCfg × ℚ × ℚ))
    (params out : List (String × ℚ))
    (h : l.foldlM (fun d p => mutateOne rate p.1 p.2.1 p.2.2 d) params =
      some out)
    (k : String) (hk : ∀ p ∈ l, k ≠ p.1.name) :
    dictLookup out k = dictLookup params k := by
  induction l generalizing params with
  | nil =>
      simp only [List.foldlM_nil] at h
      injection h with h1
      subst h1
      rfl
  | cons q rest ih =>
      rw [List.foldlM_cons] at h
      cases hm : mutateOne rate q.1 q.2.1 q.2.2 params with
      | none => rw [hm] at h; simp at h
      | some mid =>
          rw [hm] at h
          have hq := mutateOne_frame rate q.1 q.2.1 q.2.2 params mid hm k
            (hk q (List.mem_cons_self q rest))
          have hrest := ih mid h (fun p hp => hk p (List.mem_cons_of_mem q hp))
          exact hrest.trans hq

/-- C10: the mutation step works on a copy of the caller's mapping, and in
the mapping it returns every key other than the five mutable parameters
(max_age, metabolism_rate, resilience, reproduction_chance, aggression) maps
to exactly its input value. -/
theorem c10_mutation_frame (rate : ℚ) (draws : List (ℚ × ℚ))
    (params out : List (String × ℚ)) (k : String)
    (h : handleMutation rate draws params = some out)
    (hk : k ∉ mutableNames) :
    dictLookup out k = dictLookup params k := by
  refine foldMutate_frame rate (mutableParameters.zip draws) params out h k ?_
  intro p hp hkeq
  exact hk (hkeq.symm ▸
    List.mem_map_of_mem (fun cfg => cfg.name) (List.of_mem_zip hp).1)

/-- C10 witness: on the default parameter dict with gate draws that fire no
row, the step returns the mapping unchanged and the cooperation key keeps its
input value. -/
theorem c10_mutation_frame_witness :
    handleMutation 0 skipDraws entityParamsDict = some entityParamsDict ∧
    "cooperation" ∉ mutableNames ∧
    dictLookup entityParamsDict "cooperation" =
      dictLookup entityParamsDict "cooperation" :=
  ⟨rfl, by decide,
   c10_mutation_frame 0 skipDraws entityParamsDict entityParamsDict
     "cooperation" rfl (by decide)⟩

end TLF
